import Mathlib

/-
Verification of the umtk image toolkit (umtk/image/geometry.py and
umtk/image/io.py) against its natural-language specification.

The code operates on dense 3-D numpy arrays in depth-height-width order.
We embed such an array as a `Vol`: a shape (depth, height, width), a numpy
dtype tag, and a total data function `Nat → Nat → Nat → ℚ` whose values are
only meaningful on in-bounds indices.  Sample values are modelled as exact
rationals; float32/float64 casts are modelled as exact (no rounding), while
float-to-integer casts truncate toward zero as numpy's `astype` does.
Equality of arrays (`Vol.eqOn`) compares shapes and in-bounds values.
-/

namespace Umtk

/-- Numpy element-type tags that matter to the claims: integer kinds versus
floating kinds, with float32 distinguished from float64. -/
inductive DType where
  | int8 | int16 | int32 | int64 | uint8 | float32 | float64
  deriving DecidableEq, Repr

/-- Whether a dtype is a floating-point kind. -/
def DType.isFloat : DType → Bool
  | .float32 => true
  | .float64 => true
  | _ => false

/-- A dense 3-D numpy array in depth-height-width order: shape, dtype tag,
and sample values (only indices below the shape are meaningful). -/
structure Vol where
  depth : Nat
  height : Nat
  width : Nat
  dtype : DType
  data : Nat → Nat → Nat → ℚ

/-- Truncation toward zero of a rational, as C float-to-integer casts do
(numpy `astype` from float to an integer dtype). -/
def ratTrunc (q : ℚ) : Int := Int.tdiv q.num q.den

/-- Cast a sample value to a dtype: floating dtypes are modelled exactly,
integer dtypes truncate toward zero. -/
def castTo (dt : DType) (q : ℚ) : ℚ :=
  if dt.isFloat then q else (ratTrunc q : ℚ)

/-- Elementwise `astype`: retags the dtype and casts every sample. -/
def castVol (dt : DType) (v : Vol) : Vol :=
  { v with dtype := dt, data := fun z y x => castTo dt (v.data z y x) }

/-- Array equality: same shape and equal samples at every in-bounds index
(numpy value equality; the dtype tag is compared separately by the claims
that are about dtypes). -/
def Vol.eqOn (a b : Vol) : Prop :=
  a.depth = b.depth ∧ a.height = b.height ∧ a.width = b.width ∧
  ∀ z, z < a.depth → ∀ y, y < a.height → ∀ x, x < a.width →
    a.data z y x = b.data z y x

instance (a b : Vol) : Decidable (a.eqOn b) := by
  unfold Vol.eqOn; infer_instance

theorem Vol.eqOn_refl (a : Vol) : a.eqOn a :=
  ⟨rfl, rfl, rfl, fun _ _ _ _ _ _ => rfl⟩

/-- Source `zflip`: reverse along axis 0 (`img[::-1, :, :]`); the
`np.ascontiguousarray` copy is the identity on values. -/
def zflip (img : Vol) : Vol :=
  { img with data := fun z y x => img.data (img.depth - 1 - z) y x }

/-- Source `yflip`: reverse along axis 1 (`img[:, ::-1, :]`). -/
def yflip (img : Vol) : Vol :=
  { img with data := fun z y x => img.data z (img.height - 1 - y) x }

/-- Source `xflip`: reverse along axis 2 (`img[:, :, ::-1]`). -/
def xflip (img : Vol) : Vol :=
  { img with data := fun z y x => img.data z y (img.width - 1 - x) }

/-- Python slice normalization for `a[lo:hi]` on an axis of length `len`:
a negative bound has `len` added once, then the bound is clamped into
`[0, len]`.  Returns the effective start offset. -/
def sliceStart (len : Nat) (i : Int) : Nat :=
  (max 0 (min (if i < 0 then i + len else i) len)).toNat

/-- Basic slicing `img[z1:z2, y1:y2, x1:x2]` with Python semantics on every
axis: out-of-range bounds are clamped (never an error) and an empty slice
results when the clamped stop does not exceed the clamped start. -/
def slice3 (img : Vol) (z1 z2 y1 y2 x1 x2 : Int) : Vol where
  depth := sliceStart img.depth z2 - sliceStart img.depth z1
  height := sliceStart img.height y2 - sliceStart img.height y1
  width := sliceStart img.width x2 - sliceStart img.width x1
  dtype := img.dtype
  data := fun z y x =>
    img.data (sliceStart img.depth z1 + z) (sliceStart img.height y1 + y)
      (sliceStart img.width x1 + x)

/-- Source `crop(img, point, size)` with `point = (z, y, x)` and
`size = (d, h, w)`: the direct slice `img[z:z+d, y:y+h, x:x+w]`. -/
def crop (img : Vol) (z y x d h w : Int) : Vol :=
  slice3 img z (z + d) y (y + h) x (x + w)

/-- Source `center_crop(img, crop_depth, crop_height, crop_width)`:
per axis `start = (extent - crop_extent) // 2` (Python floor division,
possibly negative) and `end = start + crop_extent`, then slice. -/
def center_crop (img : Vol) (cd ch cw : Nat) : Vol :=
  let z1 := Int.fdiv ((img.depth : Int) - cd) 2
  let y1 := Int.fdiv ((img.height : Int) - ch) 2
  let x1 := Int.fdiv ((img.width : Int) - cw) 2
  slice3 img z1 (z1 + cd) y1 (y1 + ch) x1 (x1 + cw)

/-- A concrete 10x10x10 int32 test volume with distinct sample values. -/
def img10 : Vol :=
  ⟨10, 10, 10, DType.int32, fun z y x => ((z * 100 + y * 10 + x : Nat) : ℚ)⟩

/-- A loaded SimpleITK image: the depth-height-width array that
`GetArrayFromImage` yields, the flat 3x3 direction-cosine matrix from
`GetDirection` (indices 0..8), and `GetSpacing` / `GetOrigin` in the file's
native width-height-depth (x, y, z) order. -/
structure ItkImage where
  vol : Vol
  direction : Nat → ℚ
  spacing : ℚ × ℚ × ℚ
  origin : ℚ × ℚ × ℚ

/-- The header mapping built by `read_itk`; its fields are exactly the keys
`spacing`, `direction`, `origin` of the Python dict, each a depth-height-width
ordered triple. -/
structure Header where
  spacing : ℚ × ℚ × ℚ
  direction : ℚ × ℚ × ℚ
  origin : ℚ × ℚ × ℚ

/-- Reverse one axis of a volume: `np.flip(image, axis)` for axis 0, 1 or 2
(other axis values cannot arise from three direction cosines). -/
def flipAxis (v : Vol) : Nat → Vol
  | 0 => zflip v
  | 1 => yflip v
  | 2 => xflip v
  | _ => v

/-- `np.flip(image, axes)` for a list of distinct axes: flip along each. -/
def npFlip (v : Vol) (axes : List Nat) : Vol := axes.foldl flipAxis v

/-- Source line `np.where(directions[[0, 4, 8]][::-1] < 0)[0]`: the
ascending axis indices whose cosine is negative, after reversing
`(d0, d4, d8)` into `(d8, d4, d0)` so that axis 0 (depth) pairs with
native index 8, axis 1 (height) with 4, axis 2 (width) with 0. -/
def negAxes (dir : Nat → ℚ) : List Nat :=
  (if dir 8 < 0 then [0] else []) ++ (if dir 4 < 0 then [1] else []) ++
    (if dir 0 < 0 then [2] else [])

/-- Numpy `np.round` on a scalar: round half to even (banker's rounding). -/
def npRound (q : ℚ) : Int :=
  if q - ⌊q⌋ < 1 / 2 then ⌊q⌋
  else if q - ⌊q⌋ > 1 / 2 then ⌊q⌋ + 1
  else if ⌊q⌋ % 2 = 0 then ⌊q⌋ else ⌊q⌋ + 1

/-- Reverse a native (x, y, z) triple into depth-height-width order
(`np.asarray(...)[::-1]`). -/
def revTriple (t : ℚ × ℚ × ℚ) : ℚ × ℚ × ℚ := (t.2.2, t.2.1, t.1)

/-- Source `read_itk`, embedded over an already-loaded `ItkImage` (the file
read itself is the external SimpleITK call): optionally flip the array along
the axes with negative principal cosine, and optionally build the header; the
second component is `some header` exactly when `read_header` is true. -/
def read_itk (itk : ItkImage) (read_header reorient : Bool) :
    Vol × Option Header :=
  let image := if reorient then npFlip itk.vol (negAxes itk.direction) else itk.vol
  if read_header then
    let direction : ℚ × ℚ × ℚ :=
      if reorient then (1, 1, 1)
      else ((npRound (itk.direction 8) : ℚ), (npRound (itk.direction 4) : ℚ),
        (npRound (itk.direction 0) : ℚ))
    (image, some ⟨revTriple itk.spacing, direction, revTriple itk.origin⟩)
  else (image, none)

/-- Spec-side description of reorientation (for claim C3): flip the loaded
array along exactly those depth/height/width axes whose principal direction
cosine (native indices 8, 4, 0 respectively) is negative, expressed as one
pointwise index remapping. -/
def reorientSpec (itk : ItkImage) : Vol :=
  { itk.vol with data := fun z y x =>
      (itk.vol.data
        (if itk.direction 8 < 0 then itk.vol.depth - 1 - z else z)
        (if itk.direction 4 < 0 then itk.vol.height - 1 - y else y)
        (if itk.direction 0 < 0 then itk.vol.width - 1 - x else x)) }

/-- PyTorch nearest-neighbor source index for `F.interpolate(mode="nearest")`:
`min(floor(dst * (in / out)), in - 1)`, here in exact arithmetic as
`min ((i * inS) / outS) (inS - 1)`. -/
def nIdx (inS outS i : Nat) : Nat := min ((i * inS) / outS) (inS - 1)

/-- PyTorch source coordinate for `align_corners=False` linear modes:
`max 0 ((dst + 0.5) * (in / out) - 0.5)`. -/
def linSrc (inS outS i : Nat) : ℚ :=
  max 0 (((i : ℚ) + 1 / 2) * ((inS : ℚ) / (outS : ℚ)) - 1 / 2)

/-- One-dimensional linear interpolation of samples `f` (axis length `n`) at
source coordinate `src`: blend of `floor src` and its clamped successor. -/
def lerp1 (n : Nat) (f : Nat → ℚ) (src : ℚ) : ℚ :=
  (1 - (src - ((Int.floor src).toNat : ℚ))) * f (Int.floor src).toNat +
    (src - ((Int.floor src).toNat : ℚ)) * f (min ((Int.floor src).toNat + 1) (n - 1))

/-- `F.interpolate(tensor, size, mode, align_corners)` on the single-channel
single-batch volume: an output of exactly the requested shape whose samples
are nearest-neighbor picks or trilinear blends of the input. -/
def interpolate (v : Vol) (d h w : Nat) (mode : String) : Vol where
  depth := d
  height := h
  width := w
  dtype := v.dtype
  data := fun i j k =>
    if mode = "nearest" then
      v.data (nIdx v.depth d i) (nIdx v.height h j) (nIdx v.width w k)
    else
      lerp1 v.depth
        (fun z => lerp1 v.height
          (fun y => lerp1 v.width (fun x => v.data z y x) (linSrc v.width w k))
          (linSrc v.height h j))
        (linSrc v.depth d i)

/-- Source line `torch.from_numpy(src.astype(np.float32))`: the cast of the
input to float32 that `resize` always performs before interpolating. -/
def toFloat32 (v : Vol) : Vol := castVol DType.float32 v

/-- The successful path of source `resize` (after the mode assertion): cast
to float32, interpolate to `size = (d, h, w)`, and cast back to the input
dtype unless `to_float` is set. -/
def resizeV (src : Vol) (d h w : Nat) (to_float : Bool) (mode : String) : Vol :=
  let dst := interpolate (toFloat32 src) d h w mode
  if to_float then dst else castVol src.dtype dst

/-- Source `resize` with its `assert mode in ("nearest", "trilinear")`:
an invalid mode is an `AssertionError` raised before any other work. -/
def resize (src : Vol) (d h w : Nat) (to_float : Bool) (mode : String) :
    Except String Vol :=
  if mode = "nearest" ∨ mode = "trilinear" then
    Except.ok (resizeV src d h w to_float mode)
  else Except.error "AssertionError"

theorem resizeV_depth (v : Vol) (d h w : Nat) (tf : Bool) (mode : String) :
    (resizeV v d h w tf mode).depth = d := by cases tf <;> rfl

theorem resizeV_height (v : Vol) (d h w : Nat) (tf : Bool) (mode : String) :
    (resizeV v d h w tf mode).height = h := by cases tf <;> rfl

theorem resizeV_width (v : Vol) (d h w : Nat) (tf : Bool) (mode : String) :
    (resizeV v d h w tf mode).width = w := by cases tf <;> rfl

theorem resizeV_dtype_false (v : Vol) (d h w : Nat) (mode : String) :
    (resizeV v d h w false mode).dtype = v.dtype := rfl

theorem resizeV_nearest_data (v : Vol) (d h w i j k : Nat) :
    (resizeV v d h w false "nearest").data i j k =
      castTo v.dtype
        (v.data (nIdx v.depth d i) (nIdx v.height h j) (nIdx v.width w k)) := rfl

/-- A 2x2x2 int32 volume used as a concrete round-trip input. -/
def img2 : Vol :=
  ⟨2, 2, 2, DType.int32, fun z y x => ((z * 4 + y * 2 + x : Nat) : ℚ)⟩

/-- A 2x2x2 float64 volume used as a concrete input for the dtype claims. -/
def imgF64 : Vol :=
  ⟨2, 2, 2, DType.float64, fun z y x => ((z * 4 + y * 2 + x : Nat) : ℚ) / 3⟩

theorem sliceStart_nonneg (len : Nat) (i : Int) (h : 0 ≤ i) :
    sliceStart len i = min i.toNat len := by
  unfold sliceStart
  rw [if_neg (by omega)]
  omega

theorem sliceStart_natCast (len n : Nat) : sliceStart len (n : Int) = min n len := by
  rw [sliceStart_nonneg len n (by omega)]
  omega

theorem sliceStart_natCast_add (len n m : Nat) :
    sliceStart len ((n : Int) + (m : Int)) = min (n + m) len := by
  rw [show ((n : Int) + (m : Int)) = ((n + m : Nat) : Int) by push_cast; ring,
    sliceStart_natCast]

/-- Claim C8: each single-axis flip is an involution: `zflip (zflip img)`,
`yflip (yflip img)` and `xflip (xflip img)` all equal `img`. -/
theorem flip_involution (img : Vol) :
    ((zflip (zflip img)).eqOn img) ∧ ((yflip (yflip img)).eqOn img) ∧
      ((xflip (xflip img)).eqOn img) := by
  refine ⟨⟨rfl, rfl, rfl, ?_⟩, ⟨rfl, rfl, rfl, ?_⟩, ⟨rfl, rfl, rfl, ?_⟩⟩ <;>
    intro z hz y hy x hx <;>
    simp only [zflip, yflip, xflip] at hz hy hx ⊢
  · rw [show img.depth - 1 - (img.depth - 1 - z) = z by omega]
  · rw [show img.height - 1 - (img.height - 1 - y) = y by omega]
  · rw [show img.width - 1 - (img.width - 1 - x) = x by omega]

/-- Claim C1: `center_crop img cd ch cw` returns the slice
`img[z1:z1+cd, y1:y1+ch, x1:x1+cw]` with `z1 = (D - cd) // 2` (Python floor
division) and likewise per axis; in particular on a (10,10,10) array with
crop size (4,4,4) it equals `img[3:7, 3:7, 3:7]`. -/
theorem center_crop_spec :
    (∀ (img : Vol) (cd ch cw : Nat),
        (center_crop img cd ch cw).eqOn
          (slice3 img (Int.fdiv ((img.depth : Int) - cd) 2)
            (Int.fdiv ((img.depth : Int) - cd) 2 + cd)
            (Int.fdiv ((img.height : Int) - ch) 2)
            (Int.fdiv ((img.height : Int) - ch) 2 + ch)
            (Int.fdiv ((img.width : Int) - cw) 2)
            (Int.fdiv ((img.width : Int) - cw) 2 + cw))) ∧
    (∀ img : Vol, img.depth = 10 → img.height = 10 → img.width = 10 →
        (center_crop img 4 4 4).eqOn (slice3 img 3 7 3 7 3 7)) := by
  constructor
  · intro img cd ch cw
    exact Vol.eqOn_refl _
  · intro img hd hh hw
    obtain ⟨D, H, W, dt, f⟩ := img
    replace hd : D = 10 := hd
    replace hh : H = 10 := hh
    replace hw : W = 10 := hw
    subst hd; subst hh; subst hw
    exact ⟨rfl, rfl, rfl, fun z _ y _ x _ => rfl⟩

/-- Witness for C1 at the concrete volume `img10` of shape (10,10,10). -/
theorem center_crop_spec_witness :
    (center_crop img10 4 4 4).eqOn (slice3 img10 3 7 3 7 3 7) :=
  center_crop_spec.2 img10 rfl rfl rfl

/-- Claim C2: for non-negative point and size, `crop img (z,y,x) (d,h,w)`
is the Python slice `img[z:z+d, y:y+h, x:x+w]`: out-of-bounds requests are
silently truncated (possibly to an empty array, never an error), the kept
part sits at offset (z,y,x) of the source, and for a (10,10,10)-shaped
array `crop img (2,3,4) (3,3,3)` equals `img[2:5, 3:6, 4:7]`. -/
theorem crop_spec :
    (∀ (img : Vol) (z y x d h w : Nat),
        ((crop img z y x d h w).eqOn
          (slice3 img z ((z : Int) + d) y ((y : Int) + h) x ((x : Int) + w))) ∧
        (crop img z y x d h w).depth = min (z + d) img.depth - min z img.depth ∧
        (crop img z y x d h w).height = min (y + h) img.height - min y img.height ∧
        (crop img z y x d h w).width = min (x + w) img.width - min x img.width ∧
        (∀ i, i < (crop img z y x d h w).depth →
         ∀ j, j < (crop img z y x d h w).height →
         ∀ k, k < (crop img z y x d h w).width →
          (crop img z y x d h w).data i j k = img.data (z + i) (y + j) (x + k))) ∧
    (∀ img : Vol, (crop img 2 3 4 3 3 3).eqOn (slice3 img 2 5 3 6 4 7)) := by
  constructor
  · intro img z y x d h w
    refine ⟨Vol.eqOn_refl _, ?_, ?_, ?_, ?_⟩
    · show sliceStart img.depth ((z : Int) + d) - sliceStart img.depth z = _
      rw [sliceStart_natCast_add, sliceStart_natCast]
    · show sliceStart img.height ((y : Int) + h) - sliceStart img.height y = _
      rw [sliceStart_natCast_add, sliceStart_natCast]
    · show sliceStart img.width ((x : Int) + w) - sliceStart img.width x = _
      rw [sliceStart_natCast_add, sliceStart_natCast]
    · intro i hi j hj k hk
      simp only [crop, slice3, sliceStart_natCast, sliceStart_natCast_add]
        at hi hj hk ⊢
      rw [show min z img.depth + i = z + i by omega,
        show min y img.height + j = y + j by omega,
        show min x img.width + k = x + k by omega]
  · intro img
    exact Vol.eqOn_refl _

/-- Witness for C2: one sample of the concrete (10,10,10) example, the
bounded hypotheses of the data clause discharged by evaluation. -/
theorem crop_spec_witness :
    (crop img10 2 3 4 3 3 3).data 0 0 0 = img10.data 2 3 4 :=
  (crop_spec.1 img10 2 3 4 3 3 3).2.2.2.2 0 (by decide) 0 (by decide) 0 (by decide)

/-- Claim C3: with `reorient = true`, the array `read_itk` returns is the
loaded depth-height-width array flipped along exactly the axes whose
principal direction cosine is negative, the depth/height/width cosines taken
from native direction indices 8, 4, 0 respectively. -/
theorem read_itk_reorient (itk : ItkImage) (rh : Bool) :
    ((read_itk itk rh true).1).eqOn (reorientSpec itk) := by
  have h1 : (read_itk itk rh true).1 = npFlip itk.vol (negAxes itk.direction) := by
    cases rh <;> rfl
  rw [h1]
  by_cases h8 : itk.direction 8 < 0 <;> by_cases h4 : itk.direction 4 < 0 <;>
    by_cases h0 : itk.direction 0 < 0 <;>
    simp only [negAxes, npFlip, reorientSpec, h8, h4, h0, if_true, if_false,
      ite_true, ite_false, List.append_nil, List.nil_append, List.cons_append,
      List.foldl] <;>
    exact ⟨rfl, rfl, rfl, fun z _ y _ x _ => rfl⟩

/-- Claim C4: the header returned with `read_header = true` has exactly the
fields spacing, direction and origin; spacing and origin are the native
(x, y, z) triples reversed into depth-height-width order; direction is
(1, 1, 1) when `reorient` is true and otherwise the `np.round`-ed cosines
at native indices 8, 4, 0; with `read_header = false` no header is
returned. -/
theorem read_itk_header (itk : ItkImage) (reorient : Bool) :
    (read_itk itk true reorient).2 =
      some { spacing := (itk.spacing.2.2, itk.spacing.2.1, itk.spacing.1),
             direction :=
               if reorient then ((1 : ℚ), (1 : ℚ), (1 : ℚ))
               else ((npRound (itk.direction 8) : ℚ),
                 (npRound (itk.direction 4) : ℚ),
                 (npRound (itk.direction 0) : ℚ)),
             origin := (itk.origin.2.2, itk.origin.2.1, itk.origin.1) } ∧
    (read_itk itk false reorient).2 = none := by
  constructor <;> cases reorient <;> rfl

/-- Claim C5: `resize` fails with an assertion error exactly when `mode` is
neither "nearest" nor "trilinear", and such a failure happens before any
conversion or interpolation work: the result then does not depend on the
input array, the target size or the `to_float` flag. -/
theorem resize_mode_assert :
    (∀ (src : Vol) (d h w : Nat) (tf : Bool) (mode : String),
        resize src d h w tf mode = Except.error "AssertionError" ↔
          mode ≠ "nearest" ∧ mode ≠ "trilinear") ∧
    (∀ (s1 s2 : Vol) (d1 h1 w1 d2 h2 w2 : Nat) (t1 t2 : Bool) (mode : String),
        mode ≠ "nearest" → mode ≠ "trilinear" →
        resize s1 d1 h1 w1 t1 mode = resize s2 d2 h2 w2 t2 mode) := by
  constructor
  · intro src d h w tf mode
    unfold resize
    by_cases hm : mode = "nearest" ∨ mode = "trilinear"
    · rw [if_pos hm]
      simp only [iff_iff_implies_and_implies]
      constructor
      · intro hc
        exact absurd hc (by simp)
      · intro hc
        tauto
    · rw [if_neg hm]
      simp only [iff_iff_implies_and_implies]
      constructor
      · intro _
        tauto
      · intro _
        trivial
  · intro s1 s2 d1 h1 w1 d2 h2 w2 t1 t2 mode hn ht
    unfold resize
    rw [if_neg (by tauto), if_neg (by tauto)]

/-- Claim C6: for a valid mode and positive target size (d, h, w), `resize`
succeeds and the returned array has shape exactly (d, h, w). -/
theorem resize_shape (src : Vol) (d h w : Nat) (tf : Bool) (mode : String)
    (_hd : 0 < d) (_hh : 0 < h) (_hw : 0 < w)
    (hm : mode = "nearest" ∨ mode = "trilinear") :
    ∃ r, resize src d h w tf mode = Except.ok r ∧
      r.depth = d ∧ r.height = h ∧ r.width = w := by
  refine ⟨resizeV src d h w tf mode, ?_, resizeV_depth .., resizeV_height ..,
    resizeV_width ..⟩
  unfold resize
  rw [if_pos hm]

/-- Witness for C6 at a concrete volume, size and mode. -/
theorem resize_shape_witness :
    ∃ r, resize img10 4 5 6 false "trilinear" = Except.ok r ∧
      r.depth = 4 ∧ r.height = 5 ∧ r.width = 6 :=
  resize_shape img10 4 5 6 false "trilinear" (by decide) (by decide) (by decide)
    (Or.inr rfl)

/-- Claim C7: with `to_float = false` the result's dtype is the input's, each
sample being the float result cast to that dtype (truncation toward zero for
integer dtypes, per `castTo`); with `to_float = true` the result is
floating point for every input dtype. -/
theorem resize_dtype (x : Vol) (d h w : Nat) (mode : String)
    (hm : mode = "nearest" ∨ mode = "trilinear") :
    ∃ r rf, resize x d h w false mode = Except.ok r ∧
      resize x d h w true mode = Except.ok rf ∧
      r.dtype = x.dtype ∧ rf.dtype.isFloat = true ∧
      ∀ i j k, r.data i j k = castTo x.dtype (rf.data i j k) := by
  refine ⟨resizeV x d h w false mode, resizeV x d h w true mode, ?_, ?_, rfl, rfl,
    fun i j k => rfl⟩ <;>
  · unfold resize
    rw [if_pos hm]

/-- Witness for C7 at a concrete volume, size and mode. -/
theorem resize_dtype_witness :
    ∃ r rf, resize img2 3 3 3 false "nearest" = Except.ok r ∧
      resize img2 3 3 3 true "nearest" = Except.ok rf ∧
      r.dtype = img2.dtype ∧ rf.dtype.isFloat = true ∧
      ∀ i j k, r.data i j k = castTo img2.dtype (rf.data i j k) :=
  resize_dtype img2 3 3 3 "nearest" (Or.inl rfl)

/-- Claim C10: `resize` computes in float32 — the input is cast to float32
(`toFloat32`) before interpolation regardless of its dtype — and with
`to_float = true` the result's dtype is exactly float32, even for a float64
input. -/
theorem resize_float32 (src : Vol) (d h w : Nat) (tf : Bool) (mode : String)
    (hm : mode = "nearest" ∨ mode = "trilinear") :
    (toFloat32 src).dtype = DType.float32 ∧
    resize src d h w tf mode =
      Except.ok (if tf then interpolate (toFloat32 src) d h w mode
        else castVol src.dtype (interpolate (toFloat32 src) d h w mode)) ∧
    ∀ r, resize src d h w true mode = Except.ok r → r.dtype = DType.float32 := by
  refine ⟨rfl, ?_, ?_⟩
  · unfold resize resizeV
    rw [if_pos hm]
  · intro r hr
    unfold resize at hr
    rw [if_pos hm] at hr
    cases hr
    rfl

/-- Witness for C10 at a concrete float64 volume. -/
theorem resize_float32_witness :
    (toFloat32 imgF64).dtype = DType.float32 ∧
    resize imgF64 3 3 3 true "trilinear" =
      Except.ok (if true then interpolate (toFloat32 imgF64) 3 3 3 "trilinear"
        else castVol imgF64.dtype (interpolate (toFloat32 imgF64) 3 3 3 "trilinear")) ∧
    ∀ r, resize imgF64 3 3 3 true "trilinear" = Except.ok r →
      r.dtype = DType.float32 :=
  resize_float32 imgF64 3 3 3 true "trilinear" (Or.inr rfl)

theorem nIdx_down (n m i : Nat) (hn : 0 < n) (hm : 0 < m) (hi : i < n) :
    nIdx (m * n) n i = i * m := by
  unfold nIdx
  rw [show i * (m * n) = i * m * n by ring, Nat.mul_div_cancel _ hn]
  have hb : i * m + m ≤ m * n := by
    calc i * m + m = (i + 1) * m := by ring
    _ ≤ n * m := Nat.mul_le_mul_right m hi
    _ = m * n := Nat.mul_comm n m
  omega

theorem nIdx_up (n m i : Nat) (hn : 0 < n) (hm : 0 < m) (hi : i < n) :
    nIdx n (m * n) (i * m) = i := by
  unfold nIdx
  rw [show i * m * n = i * (m * n) by ring,
    Nat.mul_div_cancel _ (Nat.mul_pos hm hn)]
  omega

/-- Claim C9: nearest-neighbor round trip: upsampling a positive-shape array
by per-axis integer factors and downsampling back to the original shape with
`mode = "nearest"` reconstructs the array, provided every sample is
representable in the array's dtype (as every real numpy array's samples
are). -/
theorem resize_nearest_roundtrip (x : Vol) (k1 k2 k3 : Nat)
    (hD : 0 < x.depth) (hH : 0 < x.height) (hW : 0 < x.width)
    (h1 : 0 < k1) (h2 : 0 < k2) (h3 : 0 < k3)
    (hwt : ∀ z, z < x.depth → ∀ y, y < x.height → ∀ w, w < x.width →
      castTo x.dtype (x.data z y w) = x.data z y w) :
    ∃ up, resize x (k1 * x.depth) (k2 * x.height) (k3 * x.width) false "nearest"
        = Except.ok up ∧
      ∃ back, resize up x.depth x.height x.width false "nearest" = Except.ok back ∧
        back.eqOn x := by
  refine ⟨resizeV x (k1 * x.depth) (k2 * x.height) (k3 * x.width) false "nearest",
    ?_,
    resizeV (resizeV x (k1 * x.depth) (k2 * x.height) (k3 * x.width) false "nearest")
      x.depth x.height x.width false "nearest", ?_, ?_⟩
  · unfold resize
    rw [if_pos (Or.inl rfl)]
  · unfold resize
    rw [if_pos (Or.inl rfl)]
  · refine ⟨resizeV_depth .., resizeV_height .., resizeV_width .., ?_⟩
    intro i hi j hj k hk
    rw [resizeV_depth] at hi
    rw [resizeV_height] at hj
    rw [resizeV_width] at hk
    rw [resizeV_nearest_data, resizeV_dtype_false,
      resizeV_depth, resizeV_height, resizeV_width,
      nIdx_down x.depth k1 i hD h1 hi, nIdx_down x.height k2 j hH h2 hj,
      nIdx_down x.width k3 k hW h3 hk,
      resizeV_nearest_data,
      nIdx_up x.depth k1 i hD h1 hi, nIdx_up x.height k2 j hH h2 hj,
      nIdx_up x.width k3 k hW h3 hk,
      hwt i hi j hj k hk]
    exact hwt i hi j hj k hk

/-- Witness for C9: a 2x2x2 int32 volume upsampled by factor 2 per axis and
downsampled back. -/
theorem resize_nearest_roundtrip_witness :
    ∃ up, resize img2 (2 * img2.depth) (2 * img2.height) (2 * img2.width)
        false "nearest" = Except.ok up ∧
      ∃ back, resize up img2.depth img2.height img2.width false "nearest"
          = Except.ok back ∧ back.eqOn img2 :=
  resize_nearest_roundtrip img2 2 2 2 (by decide) (by decide) (by decide)
    (by decide) (by decide) (by decide) (by decide)

end Umtk
